import Mathlib

/-!
# OSLib task wrapper (src/osTask.h, oslib/osRecursiveMutex.h)

A shallow embedding of the inline code of the two headers.  Everything the
headers call but do not define (the FreeRTOS critical-section primitives, the C
allocator, the DMA allocator of FEmbed.h, OSMutex, OSMutexLocker, and the
out-of-line members of OSTask) is an external call: it is answered by a `Platform`, an arbitrary
transition function on an arbitrary kernel state, and recorded in a call log.
-/

namespace FEmbed

/-- Machine address.  The null pointer is address zero. -/
abbrev Ptr := Nat

/-- The null pointer constant. -/
def NULL : Ptr := 0

/-- Build configuration: the value tested by `#if USE_FEMBED` (osTask.h:30). -/
structure Config where
  USE_FEMBED : Bool
deriving DecidableEq, Repr

/-- External functions reached from osTask.h, with the actual arguments of the
call.  `DMA_MALLOC` and `DMA_FREE` are the functions of FEmbed.h, reachable only
when `USE_FEMBED` is set; `OSTask_currentTask` and `OSTask_feedDog` are members
of OSTask that osTask.h declares and does not define; `OSMutexLocker_ctor m` is
the constructor of class OSMutexLocker (osMutex.h, not among the sources)
applied to the mutex `m`, and `OSMutexLocker_dtor m` the destructor of the
locker that was constructed on `m`. -/
inductive Call where
  | taskENTER_CRITICAL (args : List Nat)
  | taskEXIT_CRITICAL (args : List Nat)
  | malloc (size : Nat)
  | free (p : Ptr)
  | DMA_MALLOC (size : Nat)
  | DMA_FREE (p : Ptr)
  | OSMutex_lock (m : Ptr)
  | OSMutex_unlock (m : Ptr)
  | OSMutexLocker_ctor (m : Ptr)
  | OSMutexLocker_dtor (m : Ptr)
  | OSTask_currentTask
  | OSTask_feedDog (this : Ptr)
deriving DecidableEq, Repr

/-- The environment of the wrapper: how the code behind each external call
answers (a machine word) and how it changes the kernel state `K`. -/
structure Platform (C K : Type) where
  respond : C → K → Nat × K

/-- Kernel state together with the sequence of external calls made so far. -/
structure World (C K : Type) where
  kernel : K
  log : List C
deriving DecidableEq

variable {C K : Type}

/-- Perform one external call: log it, let the platform answer it. -/
def World.call (P : Platform C K) (c : C) (w : World C K) : Nat × World C K :=
  ((P.respond c w.kernel).1, ⟨(P.respond c w.kernel).2, w.log ++ [c]⟩)

/-! ## Critical-section names (osTask.h:47-48) -/

/-- The kernel primitive `taskENTER_CRITICAL`, applied to whatever argument list
follows the name at the use site. -/
def taskENTER_CRITICAL (P : Platform Call K) (args : List Nat) (w : World Call K) :
    World Call K :=
  (w.call P (Call.taskENTER_CRITICAL args)).2

/-- The kernel primitive `taskEXIT_CRITICAL`. -/
def taskEXIT_CRITICAL (P : Platform Call K) (args : List Nat) (w : World Call K) :
    World Call K :=
  (w.call P (Call.taskEXIT_CRITICAL args)).2

/-- Line 47, `#define FE_OSTAK_ENTER_CRITICAL taskENTER_CRITICAL`.  The line is
outside the `#if USE_FEMBED` block, so the configuration is not consulted. -/
def FE_OSTAK_ENTER_CRITICAL (_cfg : Config) (P : Platform Call K) (args : List Nat)
    (w : World Call K) : World Call K :=
  taskENTER_CRITICAL P args w

/-- Line 48, `#define FE_OSTAK_EXIT_CRITICAL taskEXIT_CRITICAL`. -/
def FE_OSTAK_EXIT_CRITICAL (_cfg : Config) (P : Platform Call K) (args : List Nat)
    (w : World Call K) : World Call K :=
  taskEXIT_CRITICAL P args w

/-! ## Allocator names (osTask.h:42-43) -/

/-- The name `DMA_MALLOC`: the function of FEmbed.h when `USE_FEMBED` is set,
otherwise line 42, `#define DMA_MALLOC malloc`. -/
def DMA_MALLOC (cfg : Config) (size : Nat) : Call :=
  if cfg.USE_FEMBED then Call.DMA_MALLOC size else Call.malloc size

/-- The name `DMA_FREE`: the function of FEmbed.h when `USE_FEMBED` is set,
otherwise line 43, `#define DMA_FREE free`. -/
def DMA_FREE (cfg : Config) (p : Ptr) : Call :=
  if cfg.USE_FEMBED then Call.DMA_FREE p else Call.free p

/-! ## OSTask (osTask.h:56-118) -/

/-- Class `OSTaskPrivateData` (lines 56-62). -/
structure OSTaskPrivateData where
  m_task : Ptr
  handle : Ptr
  m_runable : Ptr
  m_is_run : Bool
deriving DecidableEq, Repr

/-- Data members of class `OSTask` (lines 109-117).  `m_lock` is the address
held by the shared pointer; `m_wd` exists only when `USE_FEMBED` is set;
`d_ptr` is the private record the task owns. -/
structure OSTask where
  m_lock : Ptr
  m_wd : Ptr
  m_wd_mask : Nat
  m_exit : Int
  d_ptr : OSTaskPrivateData
deriving DecidableEq, Repr

/-- Line 107, `void lock() { m_lock->lock(); }`. -/
def OSTask.lock (P : Platform Call K) (t : OSTask) (w : World Call K) :
    OSTask × World Call K :=
  (t, (w.call P (Call.OSMutex_lock t.m_lock)).2)

/-- Line 108, `void unlock() { m_lock->unlock(); }`. -/
def OSTask.unlock (P : Platform Call K) (t : OSTask) (w : World Call K) :
    OSTask × World Call K :=
  (t, (w.call P (Call.OSMutex_unlock t.m_lock)).2)

/-! ## OSMemoryAllocator (osTask.h:126-144) -/

/-- Class `OSMemoryAllocator`: its one data member (line 143). -/
structure OSMemoryAllocator where
  _mem : Ptr
deriving DecidableEq, Repr

/-- The constructor, lines 128-134.  `size_t` and `uint8_t` arguments are
naturals; no arithmetic is done on them. -/
def OSMemoryAllocator.ctor (cfg : Config) (P : Platform Call K) (size : Nat)
    (mem_type : Nat) (w : World Call K) : OSMemoryAllocator × World Call K :=
  let self : OSMemoryAllocator := ⟨NULL⟩
  if mem_type = 1 then
    let r := w.call P (DMA_MALLOC cfg size)
    ({ self with _mem := r.1 }, r.2)
  else
    let r := w.call P (Call.malloc size)
    ({ self with _mem := r.1 }, r.2)

/-- Member `address`, lines 136-138: the result and the object afterwards. -/
def OSMemoryAllocator.address (self : OSMemoryAllocator) : Ptr × OSMemoryAllocator :=
  (self._mem, self)

/-- The destructor, lines 140-142: `if(_mem) free(_mem);`. -/
def OSMemoryAllocator.dtor (P : Platform Call K) (self : OSMemoryAllocator)
    (w : World Call K) : World Call K :=
  if self._mem ≠ NULL then (w.call P (Call.free self._mem)).2 else w

/-- An object constructed and then destroyed. -/
def OSMemoryAllocator.lifetime (cfg : Config) (P : Platform Call K) (size : Nat)
    (mem_type : Nat) (w : World Call K) : World Call K :=
  OSMemoryAllocator.dtor P (OSMemoryAllocator.ctor cfg P size mem_type w).1
    (OSMemoryAllocator.ctor cfg P size mem_type w).2

/-- Call `address` on an object `n` times in a row; the results in order and the
object after the last call. -/
def OSMemoryAllocator.addressTimes : Nat → OSMemoryAllocator → List Ptr × OSMemoryAllocator
  | 0, self => ([], self)
  | n + 1, self =>
    let r := OSMemoryAllocator.address self
    let rest := OSMemoryAllocator.addressTimes n r.2
    (r.1 :: rest.1, rest.2)

/-! ## Watchdog feeding of the current task (osTask.h:33 and :40) -/

/-- The name `FE_OSTASK_FEED_CURR_DOG`.  With `USE_FEMBED` set it is line 33,
`do { if(currentTask()) currentTask()->feedDog(); } while(0)`; otherwise it is
line 40, an empty definition. -/
def FE_OSTASK_FEED_CURR_DOG (cfg : Config) (P : Platform Call K) (w : World Call K) :
    World Call K :=
  if cfg.USE_FEMBED then
    let r1 := w.call P Call.OSTask_currentTask
    if r1.1 ≠ NULL then
      let r2 := r1.2.call P Call.OSTask_currentTask
      (r2.2.call P (Call.OSTask_feedDog r2.1)).2
    else r1.2
  else w

/-- In kernel state `k` the current task is `t`: `currentTask()` answers `t` and,
being a query, leaves the kernel state as it is. -/
def currentIs (P : Platform Call K) (k : K) (t : Ptr) : Prop :=
  P.respond Call.OSTask_currentTask k = (t, k)

/-! ## Locked accessors (osTask.h:148-176) -/

end FEmbed

namespace fastembedded

/-- Class `Mutex` (osRecursiveMutex.h:23-27): the class body declares no data
member, so an object carries no state of its own. -/
structure Mutex where
deriving DecidableEq, Repr

/-- Kinds of member a class body can declare. -/
inductive MemberKind where
  | dataMember
  | ctor
  | dtor
  | method
deriving DecidableEq, Repr

/-- One member declaration of a class body. -/
structure MemberDecl where
  name : String
  kind : MemberKind
  isVirtual : Bool
deriving DecidableEq, Repr

/-- The member declarations of class `Mutex`, in source order: line 25,
`Mutex();`, and line 26, `virtual ~Mutex();`. -/
def Mutex.declarations : List MemberDecl :=
  [⟨"Mutex", MemberKind.ctor, false⟩, ⟨"~Mutex", MemberKind.dtor, true⟩]

end fastembedded

namespace FEmbed

variable {K : Type}

/-! ## Out-of-line members of OSTask (declared in osTask.h:76-105) -/

/-- Modelled from the spec: the kernel functions behind the OSTask members that
osTask.h only declares (their definitions, in osTask.cpp, are not among the
sources).  The spec names none of them, so each is called after the member
that forwards to it; a task is identified to the kernel by its stored handle. -/
inductive KernelCall where
  | start (handle : Ptr) (args : List Nat)
  | stop (handle : Ptr)
  | exit (handle : Ptr) (signal : Int)
  | delay (handle : Ptr) (ms : Nat)
  | feedDog (handle : Ptr)
  | priority (handle : Ptr)
  | name (handle : Ptr)
  | currentTaskName
  | currentTask
  | currentTick
deriving DecidableEq, Repr

/-- Modelled from the spec: `void start()` (line 79, built without USE_FEMBED),
whose definition is absent; "a direct, unconditional delegation to a kernel API
call". -/
def OSTask.start (P : Platform KernelCall K) (t : OSTask) (w : World KernelCall K) :
    World KernelCall K :=
  (w.call P (KernelCall.start t.d_ptr.handle [])).2

/-- Modelled from the spec: `void start(wd, mask)` (line 77, built with
USE_FEMBED), whose definition is absent; the two arguments are forwarded. -/
def OSTask.startFEmbed (P : Platform KernelCall K) (t : OSTask) (wd : Ptr) (mask : Nat)
    (w : World KernelCall K) : World KernelCall K :=
  (w.call P (KernelCall.start t.d_ptr.handle [wd, mask])).2

/-- Modelled from the spec: `void stop()` (line 81), definition absent. -/
def OSTask.stop (P : Platform KernelCall K) (t : OSTask) (w : World KernelCall K) :
    World KernelCall K :=
  (w.call P (KernelCall.stop t.d_ptr.handle)).2

/-- Modelled from the spec: `void exit(int signal)` (line 82), definition absent. -/
def OSTask.exit (P : Platform KernelCall K) (t : OSTask) (signal : Int)
    (w : World KernelCall K) : World KernelCall K :=
  (w.call P (KernelCall.exit t.d_ptr.handle signal)).2

/-- Modelled from the spec: `void delay(uint32_t ms)` (line 88), definition
absent. -/
def OSTask.delay (P : Platform KernelCall K) (t : OSTask) (ms : Nat)
    (w : World KernelCall K) : World KernelCall K :=
  (w.call P (KernelCall.delay t.d_ptr.handle ms)).2

/-- Modelled from the spec: `bool feedDog()` (line 87), definition absent; "no
computed result beyond what the kernel returns", so the result is the word the
kernel answered. -/
def OSTask.feedDog (P : Platform KernelCall K) (t : OSTask) (w : World KernelCall K) :
    Nat × World KernelCall K :=
  w.call P (KernelCall.feedDog t.d_ptr.handle)

/-- Modelled from the spec: `uint32_t priority()` (line 85), definition absent. -/
def OSTask.priority (P : Platform KernelCall K) (t : OSTask) (w : World KernelCall K) :
    Nat × World KernelCall K :=
  w.call P (KernelCall.priority t.d_ptr.handle)

/-- Modelled from the spec: `char *name()` (line 86), definition absent. -/
def OSTask.name (P : Platform KernelCall K) (t : OSTask) (w : World KernelCall K) :
    Ptr × World KernelCall K :=
  w.call P (KernelCall.name t.d_ptr.handle)

/-- Modelled from the spec: `static char *currentTaskName()` (line 103),
definition absent. -/
def OSTask.currentTaskName (P : Platform KernelCall K) (w : World KernelCall K) :
    Ptr × World KernelCall K :=
  w.call P KernelCall.currentTaskName

/-- Modelled from the spec: `static OSTask* currentTask()` (line 104), definition
absent. -/
def OSTask.currentTask (P : Platform KernelCall K) (w : World KernelCall K) :
    Ptr × World KernelCall K :=
  w.call P KernelCall.currentTask

/-- Modelled from the spec: `static uint32_t currentTick()` (line 105),
definition absent. -/
def OSTask.currentTick (P : Platform KernelCall K) (w : World KernelCall K) :
    Nat × World KernelCall K :=
  w.call P KernelCall.currentTick

/-! ## Sample platforms, used to evaluate the code on concrete inputs -/

/-- A platform on which every external call answers zero: allocation always
fails and there is never a current task. -/
def Platform.zero {C : Type} : Platform C Unit :=
  ⟨fun _ k => (0, k)⟩

/-- A platform whose kernel state is the next free address: both allocators hand
out the next free address and advance it by the requested size, the current
task is the object at address 4096, and `feedDog` answers true. -/
def Platform.bump : Platform Call Nat :=
  ⟨fun c k =>
    match c with
    | Call.malloc size => (k, k + size)
    | Call.DMA_MALLOC size => (k, k + size)
    | Call.OSTask_currentTask => (4096, k)
    | Call.OSTask_feedDog _ => (1, k)
    | _ => (0, k)⟩

end FEmbed

namespace FEmbed

variable {C K : Type}

/-! ## Basic facts about external calls -/

@[simp]
theorem World.call_log (P : Platform C K) (c : C) (w : World C K) :
    (w.call P c).2.log = w.log ++ [c] := rfl

@[simp]
theorem World.call_kernel (P : Platform C K) (c : C) (w : World C K) :
    (w.call P c).2.kernel = (P.respond c w.kernel).2 := rfl

@[simp]
theorem World.call_result (P : Platform C K) (c : C) (w : World C K) :
    (w.call P c).1 = (P.respond c w.kernel).1 := rfl

/-- What the constructor does, branch by branch folded into one request. -/
theorem OSMemoryAllocator.ctor_eq (cfg : Config) (P : Platform Call K) (size mem_type : Nat)
    (w : World Call K) :
    OSMemoryAllocator.ctor cfg P size mem_type w =
      (⟨(P.respond (if mem_type = 1 then DMA_MALLOC cfg size else Call.malloc size)
            w.kernel).1⟩,
       ⟨(P.respond (if mem_type = 1 then DMA_MALLOC cfg size else Call.malloc size)
            w.kernel).2,
        w.log ++ [if mem_type = 1 then DMA_MALLOC cfg size else Call.malloc size]⟩) := by
  unfold OSMemoryAllocator.ctor
  by_cases h : mem_type = 1 <;> simp [h, World.call]

/-- Repeated `address` calls all answer the stored pointer and keep the object. -/
theorem OSMemoryAllocator.addressTimes_eq (n : Nat) (self : OSMemoryAllocator) :
    OSMemoryAllocator.addressTimes n self = (List.replicate n self._mem, self) := by
  induction n with
  | zero => rfl
  | succ n ih =>
    simp [OSMemoryAllocator.addressTimes, OSMemoryAllocator.address, ih, List.replicate_succ]

/-- The whole life of an allocator object, in any configuration: one request,
then one `free` of the block if the request answered non-null. -/
theorem OSMemoryAllocator.lifetime_log (cfg : Config) (P : Platform Call K)
    (size mem_type : Nat) (w : World Call K) :
    (OSMemoryAllocator.lifetime cfg P size mem_type w).log =
      w.log ++ [if mem_type = 1 then DMA_MALLOC cfg size else Call.malloc size] ++
        (if (P.respond (if mem_type = 1 then DMA_MALLOC cfg size else Call.malloc size)
              w.kernel).1 ≠ NULL
         then [Call.free (P.respond (if mem_type = 1 then DMA_MALLOC cfg size
                else Call.malloc size) w.kernel).1]
         else []) := by
  unfold OSMemoryAllocator.lifetime OSMemoryAllocator.dtor
  rw [OSMemoryAllocator.ctor_eq]
  by_cases h : (P.respond (if mem_type = 1 then DMA_MALLOC cfg size else Call.malloc size)
      w.kernel).1 = NULL
  · simp [h]
  · simp [h]

/-! ## The claims -/

/-- C1: for every task state, `lock()` makes exactly one external call, the
`lock` of the mutex `m_lock`, and `unlock()` exactly one, the `unlock` of the
same mutex; the kernel state afterwards is the one that call produced, and the
task (hence `m_wd_mask`, `m_exit`, `d_ptr`) is unchanged. -/
theorem C1_lock_unlock_delegate (P : Platform Call K) (t : OSTask) (w : World Call K) :
    ((OSTask.lock P t w).2.log = w.log ++ [Call.OSMutex_lock t.m_lock] ∧
      (OSTask.lock P t w).2.kernel = (P.respond (Call.OSMutex_lock t.m_lock) w.kernel).2 ∧
      (OSTask.lock P t w).1 = t) ∧
    ((OSTask.unlock P t w).2.log = w.log ++ [Call.OSMutex_unlock t.m_lock] ∧
      (OSTask.unlock P t w).2.kernel =
        (P.respond (Call.OSMutex_unlock t.m_lock) w.kernel).2 ∧
      (OSTask.unlock P t w).1 = t) ∧
    ((OSTask.lock P t w).1.m_wd_mask = t.m_wd_mask ∧
      (OSTask.lock P t w).1.m_exit = t.m_exit ∧
      (OSTask.lock P t w).1.d_ptr = t.d_ptr ∧
      (OSTask.unlock P t w).1.m_wd_mask = t.m_wd_mask ∧
      (OSTask.unlock P t w).1.m_exit = t.m_exit ∧
      (OSTask.unlock P t w).1.d_ptr = t.d_ptr) := by
  refine ⟨⟨rfl, rfl, rfl⟩, ⟨rfl, rfl, rfl⟩, rfl, rfl, rfl, rfl, rfl, rfl⟩

/-- C2: in every build configuration and every kernel state, the wrapper names
`FE_OSTAK_ENTER_CRITICAL` and `FE_OSTAK_EXIT_CRITICAL` produce exactly the world
(kernel state and calls made) that `taskENTER_CRITICAL` and `taskEXIT_CRITICAL`
produce on the same arguments. -/
theorem C2_critical_section_names (cfg : Config) (P : Platform Call K) (args : List Nat)
    (w : World Call K) :
    FE_OSTAK_ENTER_CRITICAL cfg P args w = taskENTER_CRITICAL P args w ∧
    FE_OSTAK_EXIT_CRITICAL cfg P args w = taskEXIT_CRITICAL P args w ∧
    (FE_OSTAK_ENTER_CRITICAL cfg P args w).kernel =
      (P.respond (Call.taskENTER_CRITICAL args) w.kernel).2 ∧
    (FE_OSTAK_EXIT_CRITICAL cfg P args w).kernel =
      (P.respond (Call.taskEXIT_CRITICAL args) w.kernel).2 := by
  exact ⟨rfl, rfl, rfl, rfl⟩

/-- C3: every out-of-line task operation makes exactly one kernel call, carrying
the stored handle and the argument values the caller passed, and hands back
exactly the word the kernel answered (operations returning `void` hand back
only the kernel state that call produced). -/
theorem C3_members_forward (P : Platform KernelCall K) (t : OSTask) (wd : Ptr)
    (mask ms : Nat) (signal : Int) (w : World KernelCall K) :
    OSTask.start P t w =
      ⟨(P.respond (KernelCall.start t.d_ptr.handle []) w.kernel).2,
       w.log ++ [KernelCall.start t.d_ptr.handle []]⟩ ∧
    OSTask.startFEmbed P t wd mask w =
      ⟨(P.respond (KernelCall.start t.d_ptr.handle [wd, mask]) w.kernel).2,
       w.log ++ [KernelCall.start t.d_ptr.handle [wd, mask]]⟩ ∧
    OSTask.stop P t w =
      ⟨(P.respond (KernelCall.stop t.d_ptr.handle) w.kernel).2,
       w.log ++ [KernelCall.stop t.d_ptr.handle]⟩ ∧
    OSTask.exit P t signal w =
      ⟨(P.respond (KernelCall.exit t.d_ptr.handle signal) w.kernel).2,
       w.log ++ [KernelCall.exit t.d_ptr.handle signal]⟩ ∧
    OSTask.delay P t ms w =
      ⟨(P.respond (KernelCall.delay t.d_ptr.handle ms) w.kernel).2,
       w.log ++ [KernelCall.delay t.d_ptr.handle ms]⟩ ∧
    OSTask.feedDog P t w =
      ((P.respond (KernelCall.feedDog t.d_ptr.handle) w.kernel).1,
       ⟨(P.respond (KernelCall.feedDog t.d_ptr.handle) w.kernel).2,
        w.log ++ [KernelCall.feedDog t.d_ptr.handle]⟩) ∧
    OSTask.priority P t w =
      ((P.respond (KernelCall.priority t.d_ptr.handle) w.kernel).1,
       ⟨(P.respond (KernelCall.priority t.d_ptr.handle) w.kernel).2,
        w.log ++ [KernelCall.priority t.d_ptr.handle]⟩) ∧
    OSTask.name P t w =
      ((P.respond (KernelCall.name t.d_ptr.handle) w.kernel).1,
       ⟨(P.respond (KernelCall.name t.d_ptr.handle) w.kernel).2,
        w.log ++ [KernelCall.name t.d_ptr.handle]⟩) ∧
    OSTask.currentTaskName P w =
      ((P.respond KernelCall.currentTaskName w.kernel).1,
       ⟨(P.respond KernelCall.currentTaskName w.kernel).2,
        w.log ++ [KernelCall.currentTaskName]⟩) ∧
    OSTask.currentTask P w =
      ((P.respond KernelCall.currentTask w.kernel).1,
       ⟨(P.respond KernelCall.currentTask w.kernel).2,
        w.log ++ [KernelCall.currentTask]⟩) ∧
    OSTask.currentTick P w =
      ((P.respond KernelCall.currentTick w.kernel).1,
       ⟨(P.respond KernelCall.currentTick w.kernel).2,
        w.log ++ [KernelCall.currentTick]⟩) := by
  exact ⟨rfl, rfl, rfl, rfl, rfl, rfl, rfl, rfl, rfl, rfl, rfl⟩

/-- C4 (evaluation at the failing input): built with USE_FEMBED, an allocator of
16 bytes with `mem_type` 1 obtains its block, at address 64, from `DMA_MALLOC`;
its destructor then hands that block to `free`.  `DMA_FREE`, the function the
name `DMA_FREE` stands for in this configuration, is never called. -/
theorem C4_dma_block_released_with_free :
    (OSMemoryAllocator.ctor ⟨true⟩ Platform.bump 16 1 ⟨64, []⟩).2.log
        = [Call.DMA_MALLOC 16] ∧
    (OSMemoryAllocator.ctor ⟨true⟩ Platform.bump 16 1 ⟨64, []⟩).1._mem = 64 ∧
    (OSMemoryAllocator.lifetime ⟨true⟩ Platform.bump 16 1 ⟨64, []⟩).log
        = [Call.DMA_MALLOC 16, Call.free 64] ∧
    DMA_FREE ⟨true⟩ 64 = Call.DMA_FREE 64 ∧
    (OSMemoryAllocator.lifetime ⟨true⟩ Platform.bump 16 1 ⟨64, []⟩).log.count
        (DMA_FREE ⟨true⟩ 64) = 0 := by
  decide

/-- C5 (counterexample): built without USE_FEMBED, in a state whose current task
is the non-null object at address 4096, `FE_OSTASK_FEED_CURR_DOG` leaves the
world untouched: it calls `feedDog` on that task zero times, not once. -/
theorem C5_no_feed_without_fembed :
    currentIs Platform.bump 64 4096 ∧ (4096 : Ptr) ≠ NULL ∧
    FE_OSTASK_FEED_CURR_DOG ⟨false⟩ Platform.bump ⟨64, []⟩ = ⟨64, []⟩ ∧
    (FE_OSTASK_FEED_CURR_DOG ⟨false⟩ Platform.bump ⟨64, []⟩).log.count
        (Call.OSTask_feedDog 4096) = 0 := by
  refine ⟨rfl, by decide, by decide, by decide⟩

/-- C5 (amended): built with USE_FEMBED, in every state whose current task is a
non-null `t`, `FE_OSTASK_FEED_CURR_DOG` queries `currentTask()` twice and then
calls `feedDog` on `t`, exactly once; when `currentTask()` answers null it makes
that one query and no other call.  Built without USE_FEMBED it makes no call
and changes nothing, in every state. -/
theorem C5_feed_curr_dog (cfg : Config) (P : Platform Call K) (w : World Call K) (t : Ptr) :
    (cfg.USE_FEMBED = true → currentIs P w.kernel t → t ≠ NULL →
      FE_OSTASK_FEED_CURR_DOG cfg P w =
        ⟨(P.respond (Call.OSTask_feedDog t) w.kernel).2,
         w.log ++ [Call.OSTask_currentTask, Call.OSTask_currentTask,
           Call.OSTask_feedDog t]⟩ ∧
      (FE_OSTASK_FEED_CURR_DOG cfg P w).log.count (Call.OSTask_feedDog t) =
        w.log.count (Call.OSTask_feedDog t) + 1) ∧
    (cfg.USE_FEMBED = true → (P.respond Call.OSTask_currentTask w.kernel).1 = NULL →
      FE_OSTASK_FEED_CURR_DOG cfg P w =
        ⟨(P.respond Call.OSTask_currentTask w.kernel).2,
         w.log ++ [Call.OSTask_currentTask]⟩ ∧
      ∀ p, (FE_OSTASK_FEED_CURR_DOG cfg P w).log.count (Call.OSTask_feedDog p) =
        w.log.count (Call.OSTask_feedDog p)) ∧
    (cfg.USE_FEMBED = false → FE_OSTASK_FEED_CURR_DOG cfg P w = w) := by
  refine ⟨?_, ?_, ?_⟩
  · intro hcfg hcur hne
    unfold currentIs at hcur
    have hfeed : FE_OSTASK_FEED_CURR_DOG cfg P w =
        ⟨(P.respond (Call.OSTask_feedDog t) w.kernel).2,
         w.log ++ [Call.OSTask_currentTask, Call.OSTask_currentTask,
           Call.OSTask_feedDog t]⟩ := by
      simp [FE_OSTASK_FEED_CURR_DOG, World.call, hcfg, hcur, hne]
    refine ⟨hfeed, ?_⟩
    rw [hfeed]
    simp [List.count_append, List.count_cons]
  · intro hcfg hnull
    have hfeed : FE_OSTASK_FEED_CURR_DOG cfg P w =
        ⟨(P.respond Call.OSTask_currentTask w.kernel).2,
         w.log ++ [Call.OSTask_currentTask]⟩ := by
      simp [FE_OSTASK_FEED_CURR_DOG, World.call, hcfg, hnull]
    refine ⟨hfeed, ?_⟩
    intro p
    rw [hfeed]
    simp [List.count_append, List.count_cons]
  · intro hcfg
    simp [FE_OSTASK_FEED_CURR_DOG, hcfg]

/-- C5 (amended), at concrete inputs: with USE_FEMBED and current task 4096 the
log is the two queries and one `feedDog 4096`; with USE_FEMBED and no current
task it is the one query; without USE_FEMBED it stays empty. -/
theorem C5_feed_curr_dog_witness :
    (FE_OSTASK_FEED_CURR_DOG ⟨true⟩ Platform.bump ⟨64, []⟩).log =
        [Call.OSTask_currentTask, Call.OSTask_currentTask, Call.OSTask_feedDog 4096] ∧
    (FE_OSTASK_FEED_CURR_DOG ⟨true⟩ Platform.zero ⟨(), []⟩).log =
        [Call.OSTask_currentTask] ∧
    FE_OSTASK_FEED_CURR_DOG ⟨false⟩ Platform.bump ⟨64, []⟩ = ⟨64, []⟩ :=
  ⟨congrArg World.log
      ((C5_feed_curr_dog ⟨true⟩ Platform.bump ⟨64, []⟩ 4096).1 rfl rfl (by decide)).1,
   congrArg World.log
      ((C5_feed_curr_dog ⟨true⟩ Platform.zero ⟨(), []⟩ 0).2.1 rfl rfl).1,
   (C5_feed_curr_dog ⟨false⟩ Platform.bump ⟨64, []⟩ 0).2.2 rfl⟩

end FEmbed

namespace fastembedded

/-- C6: class `Mutex` is an empty shell.  Its state type has exactly one value,
so any two `Mutex` objects have equal state; its class body declares one
constructor and one destructor and nothing else: no data member, and no member
named `lock` or `unlock`. -/
theorem C6_mutex_empty_shell :
    (∃ m : Mutex, ∀ a : Mutex, a = m) ∧
    (∀ a b : Mutex, a = b) ∧
    Mutex.declarations.map MemberDecl.kind = [MemberKind.ctor, MemberKind.dtor] ∧
    (∀ d ∈ Mutex.declarations, d.kind ≠ MemberKind.dataMember ∧ d.kind ≠ MemberKind.method) ∧
    (∀ d ∈ Mutex.declarations, d.name ≠ "lock" ∧ d.name ≠ "unlock") := by
  refine ⟨⟨Mutex.mk, fun a => rfl⟩, fun a b => rfl, rfl, ?_, ?_⟩
  · decide
  · decide

end fastembedded

namespace FEmbed

variable {K : Type}

/-- C7: when the allocation request made by the constructor answers null, then
for every size, `mem_type` and configuration the constructor completes having
made that one request and nothing else, the object holds null, `address()`
returns null and keeps the object, and the destructor makes no call at all (in
particular no `free`): it leaves the world as the failed request left it. -/
theorem C7_failed_allocation_unhandled (cfg : Config) (P : Platform Call K)
    (size mem_type : Nat) (w : World Call K)
    (hfail : (P.respond (if mem_type = 1 then DMA_MALLOC cfg size else Call.malloc size)
        w.kernel).1 = NULL) :
    (OSMemoryAllocator.ctor cfg P size mem_type w).2 =
      ⟨(P.respond (if mem_type = 1 then DMA_MALLOC cfg size else Call.malloc size)
          w.kernel).2,
       w.log ++ [if mem_type = 1 then DMA_MALLOC cfg size else Call.malloc size]⟩ ∧
    (OSMemoryAllocator.ctor cfg P size mem_type w).1._mem = NULL ∧
    OSMemoryAllocator.address (OSMemoryAllocator.ctor cfg P size mem_type w).1 =
      (NULL, (OSMemoryAllocator.ctor cfg P size mem_type w).1) ∧
    OSMemoryAllocator.dtor P (OSMemoryAllocator.ctor cfg P size mem_type w).1
        (OSMemoryAllocator.ctor cfg P size mem_type w).2 =
      (OSMemoryAllocator.ctor cfg P size mem_type w).2 ∧
    ∀ p, Call.free p ∉ (OSMemoryAllocator.lifetime cfg P size mem_type w).log.drop
      w.log.length := by
  have hmem : (OSMemoryAllocator.ctor cfg P size mem_type w).1._mem = NULL := by
    rw [OSMemoryAllocator.ctor_eq]; exact hfail
  have hdtor : OSMemoryAllocator.dtor P (OSMemoryAllocator.ctor cfg P size mem_type w).1
      (OSMemoryAllocator.ctor cfg P size mem_type w).2 =
      (OSMemoryAllocator.ctor cfg P size mem_type w).2 := by
    simp [OSMemoryAllocator.dtor, hmem]
  refine ⟨by rw [OSMemoryAllocator.ctor_eq], hmem, ?_, hdtor, ?_⟩
  · simp [OSMemoryAllocator.address, hmem]
  · intro p
    rw [OSMemoryAllocator.lifetime_log, hfail]
    by_cases h : mem_type = 1
    · cases hc : cfg.USE_FEMBED <;> simp [h, hc, DMA_MALLOC]
    · simp [h]

/-- C7 at a concrete input: on the platform where every allocation fails, a
16-byte DMA allocator built with USE_FEMBED holds null and is destroyed without
any further call. -/
theorem C7_failed_allocation_unhandled_witness :
    (Platform.zero.respond (if 1 = 1 then DMA_MALLOC ⟨true⟩ 16 else Call.malloc 16)
        (World.mk () ([] : List Call)).kernel).1 = NULL ∧
    (OSMemoryAllocator.ctor ⟨true⟩ Platform.zero 16 1 ⟨(), []⟩).1._mem = NULL ∧
    OSMemoryAllocator.dtor Platform.zero
        (OSMemoryAllocator.ctor ⟨true⟩ Platform.zero 16 1 ⟨(), []⟩).1
        (OSMemoryAllocator.ctor ⟨true⟩ Platform.zero 16 1 ⟨(), []⟩).2 =
      (OSMemoryAllocator.ctor ⟨true⟩ Platform.zero 16 1 ⟨(), []⟩).2 :=
  ⟨rfl,
   (C7_failed_allocation_unhandled ⟨true⟩ Platform.zero 16 1 ⟨(), []⟩ rfl).2.1,
   (C7_failed_allocation_unhandled ⟨true⟩ Platform.zero 16 1 ⟨(), []⟩ rfl).2.2.2.1⟩

/-- C8: for every size and every `mem_type` in 0..255 the constructor makes
exactly one external call, an allocation request of exactly `size` bytes,
written `DMA_MALLOC` when `mem_type` is 1 and `malloc` for every other value;
the object stores the pointer that request answered; and any number of later
`address()` calls each return that pointer and leave the object unchanged.
Spelled out per build: for `mem_type` other than 1 the call is `malloc(size)`;
for `mem_type` 1 it is the DMA allocator on `size` when built with USE_FEMBED
and `malloc(size)` when built without, where `DMA_MALLOC` is `malloc`. -/
theorem C8_one_request_of_size (cfg : Config) (P : Platform Call K) (size mem_type : Nat)
    (w : World Call K) (hty : mem_type < 256) :
    (OSMemoryAllocator.ctor cfg P size mem_type w).2.log =
      w.log ++ [if mem_type = 1 then DMA_MALLOC cfg size else Call.malloc size] ∧
    (OSMemoryAllocator.ctor cfg P size mem_type w).2.kernel =
      (P.respond (if mem_type = 1 then DMA_MALLOC cfg size else Call.malloc size)
        w.kernel).2 ∧
    (OSMemoryAllocator.ctor cfg P size mem_type w).1._mem =
      (P.respond (if mem_type = 1 then DMA_MALLOC cfg size else Call.malloc size)
        w.kernel).1 ∧
    (mem_type = 0 →
      (OSMemoryAllocator.ctor cfg P size mem_type w).2.log = w.log ++ [Call.malloc size]) ∧
    (cfg.USE_FEMBED = true →
      ((OSMemoryAllocator.ctor cfg P size mem_type w).2.log =
          w.log ++ [Call.DMA_MALLOC size] ↔ mem_type = 1)) ∧
    (∀ n, OSMemoryAllocator.addressTimes n (OSMemoryAllocator.ctor cfg P size mem_type w).1 =
      (List.replicate n
          (P.respond (if mem_type = 1 then DMA_MALLOC cfg size else Call.malloc size)
            w.kernel).1,
        (OSMemoryAllocator.ctor cfg P size mem_type w).1)) ∧
    (mem_type ≠ 1 →
      OSMemoryAllocator.ctor cfg P size mem_type w =
        (⟨(P.respond (Call.malloc size) w.kernel).1⟩,
         ⟨(P.respond (Call.malloc size) w.kernel).2, w.log ++ [Call.malloc size]⟩)) ∧
    (mem_type = 1 → cfg.USE_FEMBED = true →
      OSMemoryAllocator.ctor cfg P size mem_type w =
        (⟨(P.respond (Call.DMA_MALLOC size) w.kernel).1⟩,
         ⟨(P.respond (Call.DMA_MALLOC size) w.kernel).2,
          w.log ++ [Call.DMA_MALLOC size]⟩)) ∧
    (mem_type = 1 → cfg.USE_FEMBED = false →
      OSMemoryAllocator.ctor cfg P size mem_type w =
        (⟨(P.respond (Call.malloc size) w.kernel).1⟩,
         ⟨(P.respond (Call.malloc size) w.kernel).2, w.log ++ [Call.malloc size]⟩)) ∧
    (OSMemoryAllocator.ctor cfg P size mem_type w).2.log.length = w.log.length + 1 ∧
    (∀ n, OSMemoryAllocator.addressTimes n (OSMemoryAllocator.ctor cfg P size mem_type w).1 =
      (List.replicate n (OSMemoryAllocator.ctor cfg P size mem_type w).1._mem,
        (OSMemoryAllocator.ctor cfg P size mem_type w).1)) := by
  have _ := hty
  refine ⟨by rw [OSMemoryAllocator.ctor_eq], by rw [OSMemoryAllocator.ctor_eq],
    by rw [OSMemoryAllocator.ctor_eq], ?_, ?_, ?_, ?_, ?_, ?_, ?_, ?_⟩
  · intro h0
    rw [OSMemoryAllocator.ctor_eq]
    simp [h0]
  · intro hcfg
    rw [OSMemoryAllocator.ctor_eq]
    by_cases h : mem_type = 1
    · simp [h, hcfg, DMA_MALLOC]
    · simp [h]
  · intro n
    rw [OSMemoryAllocator.addressTimes_eq, OSMemoryAllocator.ctor_eq]
  · intro h
    rw [OSMemoryAllocator.ctor_eq]
    simp [h]
  · intro h hcfg
    rw [OSMemoryAllocator.ctor_eq]
    simp [h, hcfg, DMA_MALLOC]
  · intro h hcfg
    rw [OSMemoryAllocator.ctor_eq]
    simp [h, hcfg, DMA_MALLOC]
  · rw [OSMemoryAllocator.ctor_eq]
    simp
  · intro n
    rw [OSMemoryAllocator.addressTimes_eq]

/-- C8 at concrete inputs: `mem_type` 1 requests 16 bytes from the DMA allocator
when built with USE_FEMBED and from `malloc` when built without; `mem_type` 0
requests them from `malloc`; and `address()` returns the answered address 64
three times running. -/
theorem C8_one_request_of_size_witness :
    (1 : Nat) < 256 ∧
    (OSMemoryAllocator.ctor ⟨true⟩ Platform.bump 16 1 ⟨64, []⟩).2.log =
      [Call.DMA_MALLOC 16] ∧
    OSMemoryAllocator.addressTimes 3
        (OSMemoryAllocator.ctor ⟨true⟩ Platform.bump 16 1 ⟨64, []⟩).1 =
      ([64, 64, 64], (OSMemoryAllocator.ctor ⟨true⟩ Platform.bump 16 1 ⟨64, []⟩).1) ∧
    OSMemoryAllocator.ctor ⟨true⟩ Platform.bump 16 1 ⟨64, []⟩ =
      (⟨64⟩, ⟨80, [Call.DMA_MALLOC 16]⟩) ∧
    OSMemoryAllocator.ctor ⟨false⟩ Platform.bump 16 1 ⟨64, []⟩ =
      (⟨64⟩, ⟨80, [Call.malloc 16]⟩) ∧
    OSMemoryAllocator.ctor ⟨true⟩ Platform.bump 16 0 ⟨64, []⟩ =
      (⟨64⟩, ⟨80, [Call.malloc 16]⟩) :=
  ⟨by decide,
   (C8_one_request_of_size ⟨true⟩ Platform.bump 16 1 ⟨64, []⟩ (by decide)).1,
   (C8_one_request_of_size ⟨true⟩ Platform.bump 16 1 ⟨64, []⟩ (by decide)).2.2.2.2.2.1 3,
   (C8_one_request_of_size ⟨true⟩ Platform.bump 16 1 ⟨64, []⟩ (by decide)).2.2.2.2.2.2.2.1
      rfl rfl,
   (C8_one_request_of_size ⟨false⟩ Platform.bump 16 1 ⟨64, []⟩ (by decide)).2.2.2.2.2.2.2.2.1
      rfl rfl,
   (C8_one_request_of_size ⟨true⟩ Platform.bump 16 0 ⟨64, []⟩ (by decide)).2.2.2.2.2.2.1
      (by decide)⟩

end FEmbed
